import Mathlib

/-!
Shallow embedding of the sonnun provenance-tracking core, translated from the
repository sources:

* the diff helper `findInsertedText` (pure version in the
  `useProvenanceTracking` hook; the `EditorPane` variant delegates to the
  `diff` npm package),
* the editor-update tracker (`handleEditorUpdate`), in both its
  counter-based form (`skipUpdateCountRef` in `EditorPane`) and its
  boolean-flag form (`skipNextUpdateRef` in `useProvenanceTracking`),
* the two character-count classifiers (`calculateProvenanceFromText` in
  `manifestGenerator.ts`, walking exported DOM nodes, and
  `calculateProvenanceStats`, walking the live ProseMirror document),
* the paste handler (`handlePaste` ProseMirror plugin, thresholds 10 and 50),
* the signing and verification pipeline (`sign_document` and
  `verify_document` from the Rust sources quoted in `IMPLEMENTATION.md`).

Document text is modelled as `List Char` (one entry per UTF-16 unit of the
JavaScript strings; the examples involved stay in the BMP where the two
notions agree).
-/

namespace Sonnun

/-! ## Diff engine

`findInsertedText` (useProvenanceTracking hook):

```ts
const findInsertedText = (oldText: string, newText: string): string => {
  let start = 0
  while (start < oldText.length && start < newText.length && oldText[start] === newText[start]) {
    start++
  }
  let oldEnd = oldText.length - 1
  let newEnd = newText.length - 1
  while (oldEnd >= start && newEnd >= start && oldText[oldEnd] === newText[newEnd]) {
    oldEnd--
    newEnd--
  }
  return newText.slice(start, newEnd + 1)
}
```
-/

/-- Length of the longest common prefix: the first `while` loop of
`findInsertedText` advances `start` exactly this far. -/
def commonPrefixLen : List Char → List Char → Nat
  | a :: o, b :: n => if a = b then commonPrefixLen o n + 1 else 0
  | _, _ => 0

/-- The second `while` loop of `findInsertedText` walks both strings from the
end, staying at or after index `start`, and stops at the first mismatch.  On
the suffixes `oldText.drop start` and `newText.drop start` this is exactly the
longest common prefix of the reversals. -/
def commonSuffixLen (o n : List Char) : Nat := commonPrefixLen o.reverse n.reverse

/-- Function `findInsertedText` from the `useProvenanceTracking` hook.  With
`start` the first loop's final value and `k` the number of iterations of the
second loop, the returned slice `newText.slice(start, newEnd + 1)` is
`(newText.drop start).take (newText.length - start - k)` (JS `slice` clamps an
end below the start to the empty string, as truncated `Nat` subtraction
does). -/
def findInsertedText (oldText newText : List Char) : List Char :=
  let start := commonPrefixLen oldText newText
  let k := commonSuffixLen (oldText.drop start) (newText.drop start)
  (newText.drop start).take (newText.length - start - k)

theorem commonPrefixLen_self (t : List Char) : commonPrefixLen t t = t.length := by
  induction t with
  | nil => rfl
  | cons a t ih => simp [commonPrefixLen, ih]

theorem findInsertedText_self (t : List Char) : findInsertedText t t = [] := by
  simp [findInsertedText, commonPrefixLen_self, List.drop_length]

/-! ## Editor-update tracker

Both editor variants install an `update` listener `handleEditorUpdate` that

* skips the notification when the skip state is set, resynchronising
  `lastContentRef` to the current text;
* otherwise, when the text grew, extracts the inserted text and, when its
  `trim()` is non-empty, logs a `human` provenance event with source
  `"user"`.

The `EditorPane` variant keeps a numeric `skipUpdateCountRef` that
programmatic insertions increment and a skipped notification decrements; the
`useProvenanceTracking` hook instead keeps a boolean `skipNextUpdateRef` that
`setSkipFlag` sets to `true` and a skipped notification resets.
-/

/-- The payload handed to `logProvenanceEvent` (the wall-clock `timestamp`
field added at logging time is environment input and is not modelled). -/
structure LoggedEvent where
  event_type : String
  text : List Char
  source : String
  span_length : Nat
deriving DecidableEq

/-- The event logged for natural typing: `logProvenanceEvent('human',
insertedText, 'user', insertedText.length)`. -/
def mkHumanEvent (t : List Char) : LoggedEvent :=
  { event_type := "human", text := t, source := "user", span_length := t.length }

/-- JavaScript `String.prototype.trim` strips these (ASCII) whitespace
characters; the sources only ever test `insertedText.trim().length > 0`,
i.e. whether some non-whitespace character remains. -/
def isJsSpace (c : Char) : Bool :=
  c == ' ' || c == '\t' || c == '\n' || c == '\r' || c == '\x0b' || c == '\x0c'

/-- Test `insertedText.trim().length > 0`: some character survives trimming. -/
def trimNonEmpty (l : List Char) : Bool := l.any (fun c => !(isJsSpace c))

/-- State `lastContentRef` / `skipUpdateCountRef` / the list of events sent to
`log_provenance_event`, newest first. -/
structure TrackerState where
  lastContent : List Char
  skipUpdateCount : Nat
  log : List LoggedEvent
deriving DecidableEq

/-- The function `EditorPane` hands to `onReady`:
`skipUpdateCountRef.current += 1`, called by each programmatic insertion
(AI insert via `App.handleInsertAIText`, citation confirm via
`handleCitationConfirm`) right before it mutates the document. -/
def setSkipFlag (s : TrackerState) : TrackerState :=
  { s with skipUpdateCount := s.skipUpdateCount + 1 }

/-- Batch of `n` back-to-back programmatic insertions, each incrementing the skip
counter. -/
def applySkips : Nat → TrackerState → TrackerState
  | 0, s => s
  | n + 1, s => setSkipFlag (applySkips n s)

/-- Handler `handleEditorUpdate` from `EditorPane` (counter variant), receiving the
editor text at notification time. -/
def handleEditorUpdate (s : TrackerState) (currentText : List Char) : TrackerState :=
  if s.skipUpdateCount > 0 then
    { s with skipUpdateCount := s.skipUpdateCount - 1, lastContent := currentText }
  else
    let lastText := s.lastContent
    if currentText.length > lastText.length then
      let inserted := findInsertedText lastText currentText
      if trimNonEmpty inserted then
        { s with log := mkHumanEvent inserted :: s.log, lastContent := currentText }
      else
        { s with lastContent := currentText }
    else
      { s with lastContent := currentText }

/-- A sequence of `update` notifications, processed in order. -/
def runUpdates (s : TrackerState) (texts : List (List Char)) : TrackerState :=
  texts.foldl handleEditorUpdate s

/-- The document text after the last of a batch of notifications
(`d` when the batch is empty). -/
def lastTextOr (d : List Char) (texts : List (List Char)) : List Char :=
  texts.foldl (fun _ t => t) d

/-- State of the boolean-flag variant (`useProvenanceTracking` hook):
`skipNextUpdateRef` is a `boolean`. -/
structure FlagState where
  lastContent : List Char
  skipNextUpdate : Bool
  log : List LoggedEvent
deriving DecidableEq

/-- Function `setSkipFlag` from the hook: `skipNextUpdateRef.current = true`. -/
def setSkipFlagB (s : FlagState) : FlagState := { s with skipNextUpdate := true }

/-- Handler `handleEditorUpdate` from the hook (boolean variant). -/
def handleEditorUpdateB (s : FlagState) (currentText : List Char) : FlagState :=
  if s.skipNextUpdate then
    { s with skipNextUpdate := false, lastContent := currentText }
  else
    let lastText := s.lastContent
    if currentText.length > lastText.length then
      let inserted := findInsertedText lastText currentText
      if trimNonEmpty inserted then
        { s with log := mkHumanEvent inserted :: s.log, lastContent := currentText }
      else
        { s with lastContent := currentText }
    else
      { s with lastContent := currentText }

/-- A sequence of notifications against the boolean-flag variant. -/
def runUpdatesB (s : FlagState) (texts : List (List Char)) : FlagState :=
  texts.foldl handleEditorUpdateB s

theorem applySkips_eq (n : Nat) (s : TrackerState) :
    applySkips n s = { s with skipUpdateCount := s.skipUpdateCount + n } := by
  induction n with
  | zero => rfl
  | succ n ih => simp [applySkips, ih, setSkipFlag, Nat.add_assoc]

/-- While the skip counter covers the whole batch, every notification takes
the skip branch: the counter falls by the batch size, `lastContent` tracks the
final text, and nothing is logged. -/
theorem runUpdates_skipped (texts : List (List Char)) (s : TrackerState)
    (h : texts.length ≤ s.skipUpdateCount) :
    runUpdates s texts =
      { lastContent := lastTextOr s.lastContent texts,
        skipUpdateCount := s.skipUpdateCount - texts.length,
        log := s.log } := by
  induction texts generalizing s with
  | nil => simp [runUpdates, lastTextOr]
  | cons t ts ih =>
    have hpos : 0 < s.skipUpdateCount := by
      have := h
      simp [List.length_cons] at this
      omega
    have hstep : handleEditorUpdate s t =
        { lastContent := t, skipUpdateCount := s.skipUpdateCount - 1, log := s.log } := by
      simp [handleEditorUpdate, hpos]
    have hle : ts.length ≤ s.skipUpdateCount - 1 := by
      simp [List.length_cons] at h
      omega
    calc runUpdates s (t :: ts)
        = runUpdates (handleEditorUpdate s t) ts := rfl
      _ = _ := by
          rw [hstep, ih _ hle]
          simp [lastTextOr]
          omega

/-! ## Attribution classifier

Two character-count implementations exist.

`calculateProvenanceFromText` (manifestGenerator.ts) walks the exported DOM:
an element carrying the `data-provenance` attribute contributes its text
length to the bucket named by its `data-type` attribute (nothing when that
attribute is absent or not one of the three categories), and a text node
whose parent carries no `data-provenance` contributes to `human`.  The
exported document body is a flat sequence of provenance `<span>`s and bare
text runs, modelled by `HtmlNode`; the tree walker's visit of a tagged span's
inner text node is skipped by the `parent.hasAttribute` guard, so each run is
counted once.

`calculateProvenanceStats` (EditorPane / useProvenanceTracking) walks the
live ProseMirror document via `doc.descendants`.  For each node it tests
`if (node.marks)`, a JavaScript truthiness test that is false only when the
`marks` property is `undefined` or `null` — an *empty* marks array is truthy.
`PmNode.marks` is therefore an `Option (List PmMark)` so that both branches
of the source are representable; on real ProseMirror nodes `marks` is always
an array (`Mark.none = []` for unmarked nodes), i.e. always `some`. -/

/-- A `provenanceMark`-relevant mark: `mark.type.name` and
`mark.attrs.type`. -/
structure PmMark where
  typeName : String
  attrType : String
deriving DecidableEq

/-- A node visited by `doc.descendants`. -/
structure PmNode where
  marks : Option (List PmMark)
  isText : Bool
  textContent : List Char
deriving DecidableEq

/-- A node visited by the DOM tree walker of
`calculateProvenanceFromText`. -/
inductive HtmlNode where
  /-- An element with the `data-provenance` attribute; the argument is its
  `data-type` attribute (`none` when absent). -/
  | tagged (dtype : Option String) (text : List Char)
  /-- A text node whose parent has no `data-provenance` attribute. -/
  | untagged (text : List Char)
deriving DecidableEq

/-- The three running totals `humanChars` / `aiChars` / `citedChars`. -/
structure CharCounts where
  human : Nat
  ai : Nat
  cited : Nat
deriving DecidableEq

/-- The `switch (type)` shared by both classifiers: add `len` to the bucket
named by `t`, nothing on any other value (the `switch` has no default). -/
def addByType (c : CharCounts) (t : String) (len : Nat) : CharCounts :=
  if t = "human" then { c with human := c.human + len }
  else if t = "ai" then { c with ai := c.ai + len }
  else if t = "cited" then { c with cited := c.cited + len }
  else c

/-- The counting loop of `calculateProvenanceFromText`. -/
def domCount : List HtmlNode → CharCounts
  | [] => { human := 0, ai := 0, cited := 0 }
  | HtmlNode.tagged dtype text :: rest =>
      let c := domCount rest
      match dtype with
      | some t => addByType c t text.length
      | none => c
  | HtmlNode.untagged text :: rest =>
      let c := domCount rest
      { c with human := c.human + text.length }

/-- The per-node body of the `doc.descendants` callback in
`calculateProvenanceStats`: when `node.marks` is present (truthy), fold the
`forEach` over the marks, counting the node's text once per `provenanceMark`;
only when `marks` is absent does the `else if (node.isText)` default-to-human
branch run. -/
def pmNodeCount (c : CharCounts) (node : PmNode) : CharCounts :=
  match node.marks with
  | some ms =>
      ms.foldl
        (fun acc mark =>
          if mark.typeName = "provenanceMark" then
            addByType acc mark.attrType node.textContent.length
          else acc) c
  | none =>
      if node.isText then { c with human := c.human + node.textContent.length } else c

/-- The counting loop of `calculateProvenanceStats`. -/
def pmCount (nodes : List PmNode) : CharCounts :=
  nodes.foldl pmNodeCount { human := 0, ai := 0, cited := 0 }

/-- The `ProvenanceStats` record; percentages are kept exact (the sources
keep full `number` precision and round only in presentation). -/
structure ProvenanceStats where
  humanPercentage : ℚ
  aiPercentage : ℚ
  citedPercentage : ℚ
  totalCharacters : Nat
deriving DecidableEq

/-- Function `calculateProvenanceFromText` (manifestGenerator.ts): note the `100` in
the human fallback for an empty total. -/
def calculateProvenanceFromText (nodes : List HtmlNode) : ProvenanceStats :=
  let c := domCount nodes
  let total := c.human + c.ai + c.cited
  if total > 0 then
    { humanPercentage := ((c.human : ℚ) / total) * 100,
      aiPercentage := ((c.ai : ℚ) / total) * 100,
      citedPercentage := ((c.cited : ℚ) / total) * 100,
      totalCharacters := total }
  else
    { humanPercentage := 100, aiPercentage := 0, citedPercentage := 0,
      totalCharacters := total }

/-- Function `calculateProvenanceStats` (EditorPane / useProvenanceTracking): every
fallback for an empty total is `0`, including the human one. -/
def calculateProvenanceStats (nodes : List PmNode) : ProvenanceStats :=
  let c := pmCount nodes
  let total := c.human + c.ai + c.cited
  if total > 0 then
    { humanPercentage := ((c.human : ℚ) / total) * 100,
      aiPercentage := ((c.ai : ℚ) / total) * 100,
      citedPercentage := ((c.cited : ℚ) / total) * 100,
      totalCharacters := total }
  else
    { humanPercentage := 0, aiPercentage := 0, citedPercentage := 0,
      totalCharacters := 0 }

/-- Total length of untagged runs in a DOM node list (what the claim says is
credited to `human` on top of explicitly `human`-tagged text). -/
def untaggedLen : List HtmlNode → Nat
  | [] => 0
  | HtmlNode.tagged _ _ :: rest => untaggedLen rest
  | HtmlNode.untagged text :: rest => text.length + untaggedLen rest

/-- Total length of runs explicitly tagged `human` in a DOM node list. -/
def humanTaggedLen : List HtmlNode → Nat
  | [] => 0
  | HtmlNode.tagged (some "human") text :: rest => text.length + humanTaggedLen rest
  | HtmlNode.tagged _ _ :: rest => humanTaggedLen rest
  | HtmlNode.untagged _ :: rest => humanTaggedLen rest

theorem domCount_human_eq (nodes : List HtmlNode) :
    (domCount nodes).human = untaggedLen nodes + humanTaggedLen nodes := by
  induction nodes with
  | nil => rfl
  | cons n rest ih =>
    cases n with
    | tagged dtype text =>
      cases dtype with
      | none => simpa [domCount, untaggedLen, humanTaggedLen] using ih
      | some t =>
        by_cases h : t = "human"
        · subst h
          simp [domCount, addByType, untaggedLen, humanTaggedLen, ih]
          omega
        · simp only [domCount, addByType, h, if_false]
          by_cases hai : t = "ai" <;> by_cases hc : t = "cited" <;>
            simp_all [untaggedLen, humanTaggedLen]
    | untagged text =>
      simp [domCount, untaggedLen, humanTaggedLen, ih]
      omega

/-! ## Paste handler

The `pasteHandler` ProseMirror plugin (threshold `10` in one `EditorPane`
version, `50` in the other):

```ts
handlePaste(view, event, _slice) {
  const text = event.clipboardData?.getData('text/plain')
  if (text && text.length > 10) {
    event.preventDefault()
    setCitationModal({ isOpen: true, pastedText: text, insertPosition: ... })
    return true
  }
  if (text && text.length <= 10) {
    logProvenanceEvent('human', text, 'user', text.length)
  }
  return false
}
```

`text` is `none` when `clipboardData` is absent; the JavaScript truthiness
guard `text &&` additionally rejects the empty string. -/

/-- Observable outcome of one `handlePaste` call: whether the citation modal
was opened (and with which text), which event was logged, and the handler's
return value (`true` = paste consumed, insertion withheld pending
confirmation). -/
structure PasteOutcome where
  modalOpen : Bool
  modalText : List Char
  logged : Option LoggedEvent
  handled : Bool
deriving DecidableEq

/-- Plugin callback `handlePaste`, parameterised by the length threshold (10 or 50). -/
def handlePaste (threshold : Nat) (clip : Option (List Char)) : PasteOutcome :=
  match clip with
  | none => { modalOpen := false, modalText := [], logged := none, handled := false }
  | some text =>
    if text ≠ [] ∧ text.length > threshold then
      { modalOpen := true, modalText := text, logged := none, handled := true }
    else if text ≠ [] ∧ text.length ≤ threshold then
      { modalOpen := false, modalText := [],
        logged := some { event_type := "human", text := text, source := "user",
                         span_length := text.length },
        handled := false }
    else
      { modalOpen := false, modalText := [], logged := none, handled := false }

/-! ## Signer and verifier

Translated from the Rust code in `IMPLEMENTATION.md` (steps 5.3 and 6.1).
The Ed25519 primitives (`ed25519_dalek`) and the base64 codec are external
libraries; they enter the embedding as an abstract `SigScheme`:
`derivePublic` is key generation's public half, `wellFormedKey` /
`wellFormedSig` model the `base64 decode` + `from_bytes` pair succeeding,
and `verify` models `PublicKey::verify(..).is_ok()`.

`sign_document` parses the manifest JSON, serialises it canonically with
`serde_json::to_string`, and signs those bytes; `verify_document` extracts
the embedded `SignedManifest`, optionally compares a caller-supplied public
key byte-for-byte against the embedded one (before any decoding), then
re-serialises the embedded manifest value with the same
`serde_json::to_string` and checks the signature.  The artifact parse stage
(file read, script-tag scan, JSON decode) is I/O over the HTML wrapper and
is modelled by handing `verify_document` the already-extracted
`SignedManifest`; `canonicalManifest` is the single shared canonical
serialisation both sides call. -/

/-- A provenance event as embedded in the manifest
(`ProvenanceEvent` in manifestGenerator.ts). -/
structure ProvenanceEvent where
  timestamp : String
  event_type : String
  text_hash : String
  source : String
  span_length : Nat
deriving DecidableEq

/-- Record `ManifestData` (manifestGenerator.ts), the `manifest` value that gets
signed. -/
structure ManifestData where
  human_percentage : ℚ
  ai_percentage : ℚ
  cited_percentage : ℚ
  total_characters : Nat
  events : List ProvenanceEvent
  generated_at : String
  document_hash : String
deriving DecidableEq

/-- Record `KeyPair` (Rust): base64-encoded key halves. -/
structure KeyPair where
  public_key : String
  private_key : String
deriving DecidableEq

/-- Record `SignedManifest` (Rust). -/
structure SignedManifest where
  manifest : ManifestData
  signature : String
  public_key : String
  timestamp : String
deriving DecidableEq

/-- Record `VerificationResult` (Rust, verify.rs). -/
structure VerificationResult where
  valid : Bool
  public_key : String
  manifest : ManifestData
deriving DecidableEq

/-- The external Ed25519 + base64 stack, abstracted. -/
structure SigScheme where
  derivePublic : String → String
  sign : String → String → String
  wellFormedKey : String → Bool
  wellFormedSig : String → Bool
  verify : String → String → String → Bool

/-- Functional correctness of the signature stack: a generated public key
decodes, a produced signature decodes, and verification accepts a signature
produced with the matching private key over the same bytes. -/
def SigScheme.Correct (sch : SigScheme) : Prop :=
  ∀ sk msg,
    sch.wellFormedKey (sch.derivePublic sk) = true ∧
    sch.wellFormedSig (sch.sign sk msg) = true ∧
    sch.verify (sch.derivePublic sk) msg (sch.sign sk msg) = true

/-- Deterministic rendering of an exact percentage, standing in for
serde_json's number formatting. -/
def ratCanon (q : ℚ) : String := toString q.num ++ "/" ++ toString q.den

/-- Canonical serialisation of one embedded event (fixed field order). -/
def canonicalEvent (e : ProvenanceEvent) : String :=
  "(" ++ e.timestamp ++ "|" ++ e.event_type ++ "|" ++ e.text_hash ++ "|" ++
    e.source ++ "|" ++ toString e.span_length ++ ")"

/-- Canonical serialisation of a manifest value: the single function both
`sign_document` and `verify_document` call (`serde_json::to_string` on the
same `serde_json::Value`), hence byte-identical output for equal manifest
values by construction. -/
def canonicalManifest (m : ManifestData) : String :=
  "[" ++ ratCanon m.human_percentage ++ "|" ++ ratCanon m.ai_percentage ++ "|" ++
    ratCanon m.cited_percentage ++ "|" ++ toString m.total_characters ++ "|" ++
    String.intercalate ";" (m.events.map canonicalEvent) ++ "|" ++
    m.generated_at ++ "|" ++ m.document_hash ++ "]"

/-- Command `sign_document` (Rust, step 5.3): canonicalise, sign with the private
key, and return the manifest together with signature, public key and signing
timestamp (`now`, environment input).  The `Err` paths for undecodable
*stored* key material are not reachable for keys produced by
`generate_keypair` and are omitted. -/
def sign_document (sch : SigScheme) (kp : KeyPair) (m : ManifestData) (now : String) :
    SignedManifest :=
  { manifest := m,
    signature := sch.sign kp.private_key (canonicalManifest m),
    public_key := kp.public_key,
    timestamp := now }

/-- The optional key check: `if let Some(key) = provided_key { if key !=
public_key_b64 { .. } }`, a byte-for-byte comparison of the encoded keys. -/
def keyMismatch (provided : Option String) (embedded : String) : Bool :=
  match provided with
  | some key => key != embedded
  | none => false

/-- Verifier `verify_document` (Rust, verify.rs), on the extracted `SignedManifest`.
Stage order as in the source: optional key comparison first, then decoding
of key and signature (each `Err` on failure), then signature verification
over the re-serialised manifest.  There is no further stage: the result is
`Ok` with the verification bit — the embedded event list is never
re-aggregated and never compared against the stated percentages. -/
def verify_document (sch : SigScheme) (sm : SignedManifest) (provided_key : Option String) :
    Except String VerificationResult :=
  if keyMismatch provided_key sm.public_key then
    Except.error "Provided public key does not match document key"
  else if !(sch.wellFormedKey sm.public_key) then
    Except.error "Invalid public key"
  else if !(sch.wellFormedSig sm.signature) then
    Except.error "Invalid signature"
  else
    Except.ok
      { valid := sch.verify sm.public_key (canonicalManifest sm.manifest) sm.signature,
        public_key := sm.public_key,
        manifest := sm.manifest }

/-- Modelled from the spec: the consistency recomputation the Verifier's
fourth stage prescribes ("independently recompute category percentages from
the embedded event list") — absent from the implemented `verify_document`,
defined here only to state claims about that absence.  Events are summed by
`span_length` per category appearing in `event_type`. -/
def eventCharCounts (events : List ProvenanceEvent) : CharCounts :=
  events.foldl (fun c e => addByType c e.event_type e.span_length)
    { human := 0, ai := 0, cited := 0 }

/-- Modelled from the spec: percentages recomputed from the embedded event
list, with the classifier's formula. -/
def recomputedPercentages (events : List ProvenanceEvent) : ℚ × ℚ × ℚ :=
  let c := eventCharCounts events
  let total := c.human + c.ai + c.cited
  if total > 0 then
    (((c.human : ℚ) / total) * 100, ((c.ai : ℚ) / total) * 100,
      ((c.cited : ℚ) / total) * 100)
  else (100, 0, 0)

/-- The percentages a manifest states about itself. -/
def statedPercentages (m : ManifestData) : ℚ × ℚ × ℚ :=
  (m.human_percentage, m.ai_percentage, m.cited_percentage)

/-- A concrete, functionally correct instance of the signature stack, used
to evaluate the pipeline on closed inputs. -/
def toyScheme : SigScheme :=
  { derivePublic := fun sk => "pub-" ++ sk,
    sign := fun sk msg => msg ++ "#" ++ ("pub-" ++ sk),
    wellFormedKey := fun _ => true,
    wellFormedSig := fun _ => true,
    verify := fun pk msg sig => sig == msg ++ "#" ++ pk }

theorem toyScheme_correct : toyScheme.Correct := by
  intro sk msg
  refine ⟨rfl, rfl, ?_⟩
  simp [toyScheme]

/-- A keypair whose halves are related by `toyScheme.derivePublic`. -/
def toyKeyPair : KeyPair := { public_key := "pub-sk1", private_key := "sk1" }

/-- A manifest whose stated percentages are *not* justified by its embedded
event list: it claims 100% human over 7 characters while its only event is a
7-character `ai` insertion. -/
def badManifest : ManifestData :=
  { human_percentage := 100, ai_percentage := 0, cited_percentage := 0,
    total_characters := 7,
    events := [{ timestamp := "t1", event_type := "ai", text_hash := "h1",
                 source := "model-x", span_length := 7 }],
    generated_at := "g", document_hash := "d" }

/-- An internally consistent manifest (11 human characters, one matching
`human` event). -/
def demoManifest : ManifestData :=
  { human_percentage := 100, ai_percentage := 0, cited_percentage := 0,
    total_characters := 11,
    events := [{ timestamp := "t0", event_type := "human", text_hash := "h0",
                 source := "user", span_length := 11 }],
    generated_at := "g", document_hash := "dh" }

/-- Helper: the three percentage formulas of the classifiers sum to exactly
100 whenever the shared denominator is positive. -/
theorem pctSum (h a c : Nat) (hpos : 0 < h + a + c) :
    ((h : ℚ) / ((h + a + c : ℕ) : ℚ)) * 100 + ((a : ℚ) / ((h + a + c : ℕ) : ℚ)) * 100 +
      ((c : ℚ) / ((h + a + c : ℕ) : ℚ)) * 100 = 100 := by
  have hne : ((h : ℚ) + (a : ℚ) + (c : ℚ)) ≠ 0 := by
    have : (0 : ℚ) < (h : ℚ) + (a : ℚ) + (c : ℚ) := by exact_mod_cast hpos
    exact this.ne'
  push_cast
  field_simp
  ring

/-- Claim C1: untagged runs are supposed to count toward `human`
(`human_chars` = untagged length + explicitly-`human` length).  Evaluation at
the failing input: a document consisting of one unmarked text node `"Hello"`.
ProseMirror represents "no marks" as the empty array `Mark.none`, which is
truthy, so `calculateProvenanceStats` takes the `node.marks` branch, folds
over zero marks, and counts nothing — even though its own comment says such
text "defaults to human" and `calculateProvenanceFromText` (the manifest
path) credits the same 5 characters to `human` as the claim states. -/
theorem C1_untagged_text_dropped_by_live_classifier :
    pmCount [{ marks := some [], isText := true, textContent := "Hello".toList }] =
      { human := 0, ai := 0, cited := 0 } ∧
    domCount [HtmlNode.untagged "Hello".toList] = { human := 5, ai := 0, cited := 0 } ∧
    untaggedLen [HtmlNode.untagged "Hello".toList] +
      humanTaggedLen [HtmlNode.untagged "Hello".toList] = 5 ∧
    (0 : Nat) ≠ 5 := by
  refine ⟨rfl, rfl, rfl, by decide⟩

/-- Claim C2 (counterexample): in the boolean-flag tracker of the
`useProvenanceTracking` hook, two programmatic insertions before the next
natural notification do *not* yield two skipped classification passes: the
second `setSkipFlag` call is absorbed (the flag is already `true`), so the
second notification is diffed and logs a `human` event for text the claim
says must be skipped. -/
theorem C2_boolean_flag_counterexample :
    (runUpdatesB (setSkipFlagB (setSkipFlagB
        { lastContent := [], skipNextUpdate := false, log := [] }))
        [['a'], ['a', 'b']]).log = [mkHumanEvent ['b']] ∧
    [mkHumanEvent ['b']] ≠ ([] : List LoggedEvent) := by
  refine ⟨rfl, by decide⟩

/-- Claim C2 (amended): in the counter-based `EditorPane` tracker, `N`
programmatic insertions (each incrementing `skipUpdateCountRef`) before the
next natural notification produce exactly `N` skipped passes — no event is
logged, the counter returns to zero, `lastContent` tracks the final text —
and the `(N+1)`-th natural edit (longer text, non-whitespace insertion) is
classified normally as `human`. -/
theorem C2_counter_skips_exactly_N (s : TrackerState) (texts : List (List Char))
    (t : List Char) (h0 : s.skipUpdateCount = 0)
    (hgrow : (lastTextOr s.lastContent texts).length < t.length)
    (hmean : trimNonEmpty (findInsertedText (lastTextOr s.lastContent texts) t) = true) :
    (runUpdates (applySkips texts.length s) texts).log = s.log ∧
    (runUpdates (applySkips texts.length s) texts).skipUpdateCount = 0 ∧
    (runUpdates (applySkips texts.length s) texts).lastContent =
      lastTextOr s.lastContent texts ∧
    (handleEditorUpdate (runUpdates (applySkips texts.length s) texts) t).log =
      mkHumanEvent (findInsertedText (lastTextOr s.lastContent texts) t) :: s.log := by
  have hrun : runUpdates (applySkips texts.length s) texts =
      { lastContent := lastTextOr s.lastContent texts, skipUpdateCount := 0,
        log := s.log } := by
    rw [applySkips_eq]
    rw [runUpdates_skipped texts _ (Nat.le_add_left _ _)]
    simp [h0]
  refine ⟨by rw [hrun], by rw [hrun], by rw [hrun], ?_⟩
  rw [hrun]
  simp [handleEditorUpdate, hgrow, hmean]

/-- Witness for C2: two programmatic insertions from an empty document, two
skipped notifications, then a third natural edit appending `"c"` that is
logged as `human`. -/
theorem C2_counter_skips_exactly_N_witness :
    (({ lastContent := [], skipUpdateCount := 0, log := [] } : TrackerState).skipUpdateCount = 0) ∧
    (lastTextOr [] [['a'], ['a', 'b']]).length < ("abc".toList).length ∧
    trimNonEmpty (findInsertedText (lastTextOr [] [['a'], ['a', 'b']]) "abc".toList) = true ∧
    ((runUpdates (applySkips ([['a'], ['a', 'b']] : List (List Char)).length
        { lastContent := [], skipUpdateCount := 0, log := [] }) [['a'], ['a', 'b']]).log = [] ∧
      (runUpdates (applySkips ([['a'], ['a', 'b']] : List (List Char)).length
        { lastContent := [], skipUpdateCount := 0, log := [] })
        [['a'], ['a', 'b']]).skipUpdateCount = 0 ∧
      (runUpdates (applySkips ([['a'], ['a', 'b']] : List (List Char)).length
        { lastContent := [], skipUpdateCount := 0, log := [] })
        [['a'], ['a', 'b']]).lastContent = lastTextOr [] [['a'], ['a', 'b']] ∧
      (handleEditorUpdate (runUpdates (applySkips ([['a'], ['a', 'b']] : List (List Char)).length
          { lastContent := [], skipUpdateCount := 0, log := [] }) [['a'], ['a', 'b']])
          "abc".toList).log =
        mkHumanEvent (findInsertedText (lastTextOr [] [['a'], ['a', 'b']]) "abc".toList) :: []) :=
  ⟨rfl, by decide, by decide,
    C2_counter_skips_exactly_N { lastContent := [], skipUpdateCount := 0, log := [] }
      [['a'], ['a', 'b']] "abc".toList rfl (by decide) (by decide)⟩

/-- Claim C3 (counterexample): on the empty document the live classifier
`calculateProvenanceStats` returns `human_pct = 0`, not the claimed `100`
(every empty-total fallback in that function is `0`). -/
theorem C3_empty_doc_live_stats_zero :
    calculateProvenanceStats ([] : List PmNode) =
      { humanPercentage := 0, aiPercentage := 0, citedPercentage := 0,
        totalCharacters := 0 } ∧
    (0 : ℚ) ≠ 100 := by
  refine ⟨rfl, by norm_num⟩

/-- Claim C3 (amended): for an empty document the manifest-path classifier
`calculateProvenanceFromText` yields `human_pct = 100, ai_pct = 0,
cited_pct = 0` as claimed, while the live classifier
`calculateProvenanceStats` yields all-zero statistics. -/
theorem C3_empty_doc_split :
    calculateProvenanceFromText ([] : List HtmlNode) =
      { humanPercentage := 100, aiPercentage := 0, citedPercentage := 0,
        totalCharacters := 0 } ∧
    calculateProvenanceStats ([] : List PmNode) =
      { humanPercentage := 0, aiPercentage := 0, citedPercentage := 0,
        totalCharacters := 0 } :=
  ⟨rfl, rfl⟩

/-- Claim C4 (counterexample): a signed artifact whose manifest states 100%
human while its embedded event list is a single `ai` event verifies as
`valid = true` with no `INCONSISTENT_MANIFEST` outcome — the implemented
verifier never recomputes percentages from the event list. -/
theorem C4_inconsistent_manifest_verifies_valid :
    verify_document toyScheme (sign_document toyScheme toyKeyPair badManifest "now") none =
      Except.ok { valid := true, public_key := "pub-sk1", manifest := badManifest } ∧
    recomputedPercentages badManifest.events ≠ statedPercentages badManifest := by
  refine ⟨rfl, ?_⟩
  simp [recomputedPercentages, eventCharCounts, addByType, statedPercentages, badManifest]

/-- Claim C4 (amended): `verify_document` has no consistency stage — its
stages are the optional key comparison, the decodes and the signature check
only — so any correctly signed artifact verifies as `valid = true` even when
its stated percentages provably disagree with percentages recomputed from
its embedded event list. -/
theorem C4_no_consistency_stage (sch : SigScheme) (kp : KeyPair) (m : ManifestData)
    (now : String) (hsch : sch.Correct)
    (hkp : kp.public_key = sch.derivePublic kp.private_key)
    (hbad : recomputedPercentages m.events ≠ statedPercentages m) :
    verify_document sch (sign_document sch kp m now) none =
      Except.ok { valid := true, public_key := kp.public_key, manifest := m } := by
  obtain ⟨hwk, hws, hv⟩ := hsch kp.private_key (canonicalManifest m)
  simp [verify_document, sign_document, keyMismatch, hkp, hwk, hws, hv]

/-- Witness for C4: the toy scheme, `toyKeyPair` and the inconsistent
`badManifest`. -/
theorem C4_no_consistency_stage_witness :
    (toyKeyPair.public_key = toyScheme.derivePublic toyKeyPair.private_key) ∧
    recomputedPercentages badManifest.events ≠ statedPercentages badManifest ∧
    verify_document toyScheme (sign_document toyScheme toyKeyPair badManifest "now") none =
      Except.ok { valid := true, public_key := toyKeyPair.public_key,
                  manifest := badManifest } :=
  ⟨rfl,
    by simp [recomputedPercentages, eventCharCounts, addByType, statedPercentages, badManifest],
    C4_no_consistency_stage toyScheme toyKeyPair badManifest "now" toyScheme_correct rfl
      (by simp [recomputedPercentages, eventCharCounts, addByType, statedPercentages,
        badManifest])⟩

/-- Claim C5 (counterexample): with an expected key that differs from the
embedded one, `verify_document` returns the *string error*
`"Provided public key does not match document key"` — the same `Err` channel
used for I/O and parse failures, not a distinct structured `KEY_MISMATCH`
value — even though the embedded signature is valid against the embedded
key. -/
theorem C5_key_mismatch_is_string_error :
    verify_document toyScheme (sign_document toyScheme toyKeyPair demoManifest "now")
        (some "pub-other") =
      Except.error "Provided public key does not match document key" ∧
    toyScheme.verify (sign_document toyScheme toyKeyPair demoManifest "now").public_key
      (canonicalManifest demoManifest)
      (sign_document toyScheme toyKeyPair demoManifest "now").signature = true ∧
    ("pub-other" : String) ≠ toyKeyPair.public_key := by
  refine ⟨rfl, ?_, by decide⟩
  simp [sign_document, toyScheme, toyKeyPair]

/-- Claim C5 (amended): when the caller supplies an expected public key that
differs byte-for-byte from the embedded one, `verify_document`
short-circuits before decoding or checking anything else and returns
`Err "Provided public key does not match document key"` — an outcome
distinct from the `Ok { valid := false }` shape of a signature failure, but
carried on the same string-error channel as I/O and parse failures. -/
theorem C5_key_mismatch_short_circuit (sch : SigScheme) (sm : SignedManifest)
    (key : String) (h : key ≠ sm.public_key) :
    verify_document sch sm (some key) =
      Except.error "Provided public key does not match document key" := by
  simp [verify_document, keyMismatch, h]

/-- Witness for C5: a freshly generated different key against a signed
`demoManifest` artifact. -/
theorem C5_key_mismatch_short_circuit_witness :
    (("pub-other" : String) ≠
      (sign_document toyScheme toyKeyPair demoManifest "now").public_key) ∧
    verify_document toyScheme (sign_document toyScheme toyKeyPair demoManifest "now")
        (some "pub-other") =
      Except.error "Provided public key does not match document key" :=
  ⟨by decide,
    C5_key_mismatch_short_circuit toyScheme
      (sign_document toyScheme toyKeyPair demoManifest "now") "pub-other" (by decide)⟩

/-- Claim C6: signing a manifest and verifying the result against the
keypair's public key succeeds for every manifest and every generated keypair
(public half derived from the private half): both sides serialise the same
manifest value with the same canonical function `canonicalManifest`, so the
signature verifies and the result is `Ok` with `valid = true`. -/
theorem C6_sign_verify_roundtrip (sch : SigScheme) (kp : KeyPair) (m : ManifestData)
    (now : String) (hsch : sch.Correct)
    (hkp : kp.public_key = sch.derivePublic kp.private_key) :
    verify_document sch (sign_document sch kp m now) (some kp.public_key) =
      Except.ok { valid := true, public_key := kp.public_key, manifest := m } := by
  obtain ⟨hwk, hws, hv⟩ := hsch kp.private_key (canonicalManifest m)
  simp [verify_document, sign_document, keyMismatch, hkp, hwk, hws, hv]

/-- Witness for C6: the toy scheme, `toyKeyPair` and `demoManifest`. -/
theorem C6_sign_verify_roundtrip_witness :
    (toyKeyPair.public_key = toyScheme.derivePublic toyKeyPair.private_key) ∧
    verify_document toyScheme (sign_document toyScheme toyKeyPair demoManifest "now")
        (some toyKeyPair.public_key) =
      Except.ok { valid := true, public_key := toyKeyPair.public_key,
                  manifest := demoManifest } :=
  ⟨rfl,
    C6_sign_verify_roundtrip toyScheme toyKeyPair demoManifest "now" toyScheme_correct rfl⟩

/-- Claim C7 (counterexample): `findInsertedText` does not return the empty
string for every `len(newText) ≤ len(oldText)` pair — the equal-length
replacement `("ab", "ba")` strips no common prefix or suffix and returns the
whole of `"ba"`. -/
theorem C7_equal_length_replacement_nonempty :
    findInsertedText "ab".toList "ba".toList = "ba".toList ∧
    ("ba".toList).length ≤ ("ab".toList).length ∧
    "ba".toList ≠ ([] : List Char) := by
  refine ⟨rfl, by decide, by decide⟩

/-- Claim C7 (amended): when the new text is not longer than the old, the
editor-update handlers (both the counter and the boolean-flag variant) are
guarded by `currentText.length > lastText.length` and perform no insertion
classification — no event is logged — while the bare `findInsertedText`
helper may return a non-empty string for such replacements. -/
theorem C7_no_insertion_logged_when_not_longer (s : TrackerState) (sb : FlagState)
    (t u : List Char) (h : t.length ≤ s.lastContent.length)
    (hb : u.length ≤ sb.lastContent.length) :
    (handleEditorUpdate s t).log = s.log ∧ (handleEditorUpdateB sb u).log = sb.log := by
  constructor
  · by_cases hskip : s.skipUpdateCount > 0
    · simp [handleEditorUpdate, hskip]
    · simp [handleEditorUpdate, hskip, Nat.not_lt.mpr h]
  · by_cases hskip : sb.skipNextUpdate
    · simp [handleEditorUpdateB, hskip]
    · simp [handleEditorUpdateB, hskip, Nat.not_lt.mpr hb]

/-- Witness for C7: a deletion (`"ab"` → `"a"`) on the counter variant and
an equal-length replacement (`"ab"` → `"ba"`) on the boolean variant, with
no event logged by either. -/
theorem C7_no_insertion_logged_when_not_longer_witness :
    ("a".toList.length ≤
      ({ lastContent := "ab".toList, skipUpdateCount := 0, log := [] } :
        TrackerState).lastContent.length) ∧
    ("ba".toList.length ≤
      ({ lastContent := "ab".toList, skipNextUpdate := false, log := [] } :
        FlagState).lastContent.length) ∧
    ((handleEditorUpdate { lastContent := "ab".toList, skipUpdateCount := 0, log := [] }
        "a".toList).log = [] ∧
      (handleEditorUpdateB { lastContent := "ab".toList, skipNextUpdate := false, log := [] }
        "ba".toList).log = []) :=
  ⟨by decide, by decide,
    C7_no_insertion_logged_when_not_longer
      { lastContent := "ab".toList, skipUpdateCount := 0, log := [] }
      { lastContent := "ab".toList, skipNextUpdate := false, log := [] }
      "a".toList "ba".toList (by decide) (by decide)⟩

/-- Claim C8: the diff helper satisfies the spec's example equations —
idempotence on identical snapshots for every string, and the three concrete
prefix/suffix-trimming examples. -/
theorem C8_diff_examples :
    (∀ t : List Char, findInsertedText t t = []) ∧
    findInsertedText "ab".toList "a".toList = [] ∧
    findInsertedText "ab".toList "abc".toList = "c".toList ∧
    findInsertedText "hello".toList "heXXllo".toList = "XX".toList :=
  ⟨findInsertedText_self, rfl, rfl, rfl⟩

/-- Claim C9: whenever the computed total is positive, the three exact
percentages sum to exactly 100 — for the manifest-path classifier and for
the live classifier alike. -/
theorem C9_percentages_sum_100 :
    (∀ nodes : List HtmlNode, 0 < (calculateProvenanceFromText nodes).totalCharacters →
      (calculateProvenanceFromText nodes).humanPercentage +
        (calculateProvenanceFromText nodes).aiPercentage +
        (calculateProvenanceFromText nodes).citedPercentage = 100) ∧
    (∀ nodes : List PmNode, 0 < (calculateProvenanceStats nodes).totalCharacters →
      (calculateProvenanceStats nodes).humanPercentage +
        (calculateProvenanceStats nodes).aiPercentage +
        (calculateProvenanceStats nodes).citedPercentage = 100) := by
  constructor
  · intro nodes h
    by_cases ht : 0 < (domCount nodes).human + (domCount nodes).ai + (domCount nodes).cited
    · simp only [calculateProvenanceFromText, if_pos ht]
      exact pctSum _ _ _ ht
    · exfalso
      simp only [calculateProvenanceFromText, if_neg ht] at h
      omega
  · intro nodes h
    by_cases ht : 0 < (pmCount nodes).human + (pmCount nodes).ai + (pmCount nodes).cited
    · simp only [calculateProvenanceStats, if_pos ht]
      exact pctSum _ _ _ ht
    · exfalso
      simp only [calculateProvenanceStats, if_neg ht] at h
      omega

/-- Witness for C9: a 5-character untagged run on the manifest path and a
3-character `ai`-marked node on the live path. -/
theorem C9_percentages_sum_100_witness :
    (0 < (calculateProvenanceFromText [HtmlNode.untagged "Hello".toList]).totalCharacters) ∧
    ((calculateProvenanceFromText [HtmlNode.untagged "Hello".toList]).humanPercentage +
      (calculateProvenanceFromText [HtmlNode.untagged "Hello".toList]).aiPercentage +
      (calculateProvenanceFromText [HtmlNode.untagged "Hello".toList]).citedPercentage = 100) ∧
    (0 < (calculateProvenanceStats
      [{ marks := some [{ typeName := "provenanceMark", attrType := "ai" }],
         isText := true, textContent := "foo".toList }]).totalCharacters) ∧
    ((calculateProvenanceStats
        [{ marks := some [{ typeName := "provenanceMark", attrType := "ai" }],
           isText := true, textContent := "foo".toList }]).humanPercentage +
      (calculateProvenanceStats
        [{ marks := some [{ typeName := "provenanceMark", attrType := "ai" }],
           isText := true, textContent := "foo".toList }]).aiPercentage +
      (calculateProvenanceStats
        [{ marks := some [{ typeName := "provenanceMark", attrType := "ai" }],
           isText := true, textContent := "foo".toList }]).citedPercentage = 100) :=
  ⟨by decide,
    C9_percentages_sum_100.1 [HtmlNode.untagged "Hello".toList] (by decide),
    by decide,
    C9_percentages_sum_100.2
      [{ marks := some [{ typeName := "provenanceMark", attrType := "ai" }],
         isText := true, textContent := "foo".toList }] (by decide)⟩

/-- Claim C10 (counterexample): an empty pasted plain text (length `0`, at
or below both thresholds) neither opens the modal nor logs any event — the
JavaScript truthiness guard `text &&` rejects the empty string before the
length tests, so no `human` event is logged for it. -/
theorem C10_empty_paste_not_logged :
    handlePaste 10 (some ([] : List Char)) =
      { modalOpen := false, modalText := [], logged := none, handled := false } ∧
    handlePaste 50 (some ([] : List Char)) =
      { modalOpen := false, modalText := [], logged := none, handled := false } ∧
    ([] : List Char).length ≤ 10 := by
  refine ⟨rfl, rfl, by decide⟩

/-- Claim C10 (amended): for every *non-empty* pasted plain text at or below
the threshold (10 in one `EditorPane` version, 50 in the other), no citation
modal opens and a `human` event with source `"user"` is logged regardless of
the text's origin; every paste strictly above the threshold opens the
citation modal, is marked handled (withheld until a citation is confirmed),
and logs nothing. -/
theorem C10_paste_threshold (threshold : Nat) (text : List Char) (hne : text ≠ []) :
    (text.length ≤ threshold →
      handlePaste threshold (some text) =
        { modalOpen := false, modalText := [],
          logged := some { event_type := "human", text := text, source := "user",
                           span_length := text.length },
          handled := false }) ∧
    (threshold < text.length →
      handlePaste threshold (some text) =
        { modalOpen := true, modalText := text, logged := none, handled := true }) := by
  constructor
  · intro hle
    have hnot : ¬(text ≠ [] ∧ threshold < text.length) := by
      intro hcon
      omega
    simp [handlePaste, hnot, hne, hle]
  · intro hgt
    simp [handlePaste, hne, hgt]

/-- Witness for C10: a 2-character paste under threshold 10 is logged as
`human`, and a 12-character paste over threshold 10 opens the modal. -/
theorem C10_paste_threshold_witness :
    ("hi".toList ≠ ([] : List Char)) ∧
    ("hi".toList.length ≤ 10 →
      handlePaste 10 (some "hi".toList) =
        { modalOpen := false, modalText := [],
          logged := some { event_type := "human", text := "hi".toList, source := "user",
                           span_length := "hi".toList.length },
          handled := false }) ∧
    ((10 : Nat) < "helloized...".toList.length →
      handlePaste 10 (some "helloized...".toList) =
        { modalOpen := true, modalText := "helloized...".toList, logged := none,
          handled := true }) :=
  ⟨by decide,
    (C10_paste_threshold 10 "hi".toList (by decide)).1,
    (C10_paste_threshold 10 "helloized...".toList (by decide)).2⟩

end Sonnun
